import Mathlib

/-!
Verification of the streaming-chunk decoder of `tutorial_poc.py`
(`GPTMeAPIClient.generate_response_stream`, lines 161-193) against its
specification.  The decoder consumes the lines of a streaming HTTP body,
keeps the lines carrying the `data: ` prefix, strips the prefix, parses the
remainder with `json.loads`, yields each successfully parsed value, and on
a parse failure prints a diagnostic and continues.

The embedding is shallow: Python strings become `String`, `json.loads`
becomes a total function `json_loads : String → Option Json` (the
`JSONDecodeError` raised by the library corresponds to `none`, which is
exactly the granularity at which the script observes it through its
`try/except json.JSONDecodeError`), and the generator's observable
behaviour on a finite run becomes the list of events it produces: yielded
chunks and printed diagnostics, in order.
-/

namespace TutorialPoc

/-- A JSON value, the result type of Python's `json.loads`: `null`, booleans,
numbers (modelled exactly as rationals), strings, arrays and objects (an
object keeps its key/value pairs in source order; Python's later `dict`
construction resolves duplicate keys last-wins, see `dict_get`). -/
inductive Json where
  | null
  | bool (b : Bool)
  | num (q : Rat)
  | str (s : String)
  | arr (elems : List Json)
  | obj (fields : List (String × Json))

/-- Whether a JSON value is a boolean. -/
def Json.isBool : Json → Bool
  | Json.bool _ => true
  | _ => false

/-- JSON insignificant whitespace, as accepted by Python's `json` module:
space, tab, newline, carriage return. -/
def skipWs : List Char → List Char
  | [] => []
  | c :: cs => if c = ' ' ∨ c = '\t' ∨ c = '\n' ∨ c = '\r' then skipWs cs else c :: cs

/-- Value of a hexadecimal digit, for `\uXXXX` string escapes. -/
def hexDigitVal (c : Char) : Option Nat :=
  if '0' ≤ c ∧ c ≤ '9' then some (c.toNat - 48)
  else if 'a' ≤ c ∧ c ≤ 'f' then some (c.toNat - 87)
  else if 'A' ≤ c ∧ c ≤ 'F' then some (c.toNat - 55)
  else none

/-- Body of a JSON string literal, after the opening quote: returns the decoded
characters and the input remaining after the closing quote.  Escapes follow the
JSON grammar (`\" \\ \/ \b \f \n \r \t \uXXXX`); unescaped control characters
are rejected, as in the Python module's strict default. -/
def parseStringChars : Nat → List Char → Option (List Char × List Char)
  | 0, _ => none
  | Nat.succ f, input =>
    match input with
    | [] => none
    | c :: cs =>
      if c = '"' then some ([], cs)
      else if c = '\\' then
        match cs with
        | [] => none
        | e :: cs2 =>
          if e = '"' then (parseStringChars f cs2).map (fun r => ('"' :: r.1, r.2))
          else if e = '\\' then (parseStringChars f cs2).map (fun r => ('\\' :: r.1, r.2))
          else if e = '/' then (parseStringChars f cs2).map (fun r => ('/' :: r.1, r.2))
          else if e = 'b' then (parseStringChars f cs2).map (fun r => (Char.ofNat 8 :: r.1, r.2))
          else if e = 'f' then (parseStringChars f cs2).map (fun r => (Char.ofNat 12 :: r.1, r.2))
          else if e = 'n' then (parseStringChars f cs2).map (fun r => ('\n' :: r.1, r.2))
          else if e = 'r' then (parseStringChars f cs2).map (fun r => ('\r' :: r.1, r.2))
          else if e = 't' then (parseStringChars f cs2).map (fun r => ('\t' :: r.1, r.2))
          else if e = 'u' then
            match cs2 with
            | h1 :: h2 :: h3 :: h4 :: cs3 =>
              match hexDigitVal h1, hexDigitVal h2, hexDigitVal h3, hexDigitVal h4 with
              | some a, some b, some c3, some d =>
                (parseStringChars f cs3).map
                  (fun r => (Char.ofNat (((a * 16 + b) * 16 + c3) * 16 + d) :: r.1, r.2))
              | _, _, _, _ => none
            | _ => none
          else none
      else if c.toNat < 32 then none
      else (parseStringChars f cs).map (fun r => (c :: r.1, r.2))

/-- Split a maximal run of decimal digits off the front of the input. -/
def splitDigits : List Char → List Char × List Char
  | [] => ([], [])
  | c :: cs =>
    if c.isDigit then
      let r := splitDigits cs
      (c :: r.1, r.2)
    else ([], c :: cs)

/-- Numeric value of a digit run. -/
def digitsToNat (ds : List Char) : Nat :=
  ds.foldl (fun a c => a * 10 + (c.toNat - 48)) 0

/-- The rational value `sign * (intPart.fracDigits) * 10 ^ exp` denoted by a
JSON number token. -/
def mkNum (neg : Bool) (intPart : Nat) (fracDs : List Char) (e : Int) : Json :=
  let base : Rat := (intPart : Rat) + (digitsToNat fracDs : Rat) / ((10 : Rat) ^ fracDs.length)
  Json.num ((if neg then -base else base) * (10 : Rat) ^ e)

/-- Optional exponent part of a JSON number (`e`/`E`, optional sign, digits),
finishing the token started by `parseNumberToken`. -/
def parseExpPart (neg : Bool) (intPart : Nat) (fracDs : List Char) :
    List Char → Option (Json × List Char)
  | c :: t =>
    if c = 'e' ∨ c = 'E' then
      let signed : Int × List Char :=
        match t with
        | '+' :: u => (1, u)
        | '-' :: u => (-1, u)
        | _ => (1, t)
      match splitDigits signed.2 with
      | ([], _) => none
      | (eds, rest2) => some (mkNum neg intPart fracDs (signed.1 * (digitsToNat eds : Int)), rest2)
    else some (mkNum neg intPart fracDs 0, c :: t)
  | [] => some (mkNum neg intPart fracDs 0, [])

/-- A JSON number token: optional minus, integer part without leading zeros,
optional fraction, optional exponent. -/
def parseNumberToken (input : List Char) : Option (Json × List Char) :=
  let signSplit : Bool × List Char :=
    match input with
    | '-' :: t => (true, t)
    | _ => (false, input)
  match splitDigits signSplit.2 with
  | ([], _) => none
  | (ds, rest1) =>
    if 1 < ds.length ∧ ds.headD '0' = '0' then none
    else
      match rest1 with
      | '.' :: t =>
        match splitDigits t with
        | ([], _) => none
        | (fds, rest2) => parseExpPart signSplit.1 (digitsToNat ds) fds rest2
      | _ => parseExpPart signSplit.1 (digitsToNat ds) [] rest1

/-- Members of a JSON object after the opening brace of a non-empty object,
parameterised by the parser `pv` for member values: `"key" : value` pairs
separated by commas, ended by the closing brace. -/
def objFields (pv : List Char → Option (Json × List Char)) :
    Nat → List Char → Option (List (String × Json) × List Char)
  | 0, _ => none
  | Nat.succ g, input =>
    match skipWs input with
    | '"' :: t =>
      match parseStringChars (t.length + 1) t with
      | none => none
      | some (kcs, rest) =>
        match skipWs rest with
        | ':' :: t2 =>
          match pv (skipWs t2) with
          | none => none
          | some (v, rest2) =>
            match skipWs rest2 with
            | ',' :: t3 => (objFields pv g t3).map (fun r => ((String.mk kcs, v) :: r.1, r.2))
            | '}' :: t3 => some ([(String.mk kcs, v)], t3)
            | _ => none
        | _ => none
    | _ => none

/-- Elements of a JSON array after the opening bracket of a non-empty array,
parameterised by the parser `pv` for elements. -/
def arrElems (pv : List Char → Option (Json × List Char)) :
    Nat → List Char → Option (List Json × List Char)
  | 0, _ => none
  | Nat.succ g, input =>
    match pv (skipWs input) with
    | none => none
    | some (v, rest) =>
      match skipWs rest with
      | ',' :: t => (arrElems pv g t).map (fun r => (v :: r.1, r.2))
      | ']' :: t => some ([v], t)
      | _ => none

/-- One JSON value at the head of the input (whitespace already skipped):
string, object, array, `true`, `false`, `null` or number.  The fuel bounds the
nesting depth; every nesting level consumes at least one input character. -/
def parseValue : Nat → List Char → Option (Json × List Char)
  | 0, _ => none
  | Nat.succ f, input =>
    match input with
    | [] => none
    | c :: cs =>
      if c = '"' then
        (parseStringChars (cs.length + 1) cs).map (fun r => (Json.str (String.mk r.1), r.2))
      else if c = '{' then
        match skipWs cs with
        | '}' :: t => some (Json.obj [], t)
        | rest => (objFields (parseValue f) (rest.length + 1) rest).map
            (fun r => (Json.obj r.1, r.2))
      else if c = '[' then
        match skipWs cs with
        | ']' :: t => some (Json.arr [], t)
        | rest => (arrElems (parseValue f) (rest.length + 1) rest).map
            (fun r => (Json.arr r.1, r.2))
      else if c = 't' then
        match cs with
        | 'r' :: 'u' :: 'e' :: t => some (Json.bool true, t)
        | _ => none
      else if c = 'f' then
        match cs with
        | 'a' :: 'l' :: 's' :: 'e' :: t => some (Json.bool false, t)
        | _ => none
      else if c = 'n' then
        match cs with
        | 'u' :: 'l' :: 'l' :: t => some (Json.null, t)
        | _ => none
      else if c = '-' ∨ c.isDigit then parseNumberToken (c :: cs)
      else none

/-- Python's `json.loads`: parse a complete JSON document, allowing surrounding
whitespace; `none` corresponds to the library raising `json.JSONDecodeError`. -/
def json_loads (s : String) : Option Json :=
  match parseValue (s.length + 1) (skipWs s.toList) with
  | some (v, rest) => if skipWs rest = [] then some v else none
  | none => none

/-- Python's `str.startswith`: does `s` begin with the literal prefix `pre`? -/
def startswith (s pre : String) : Bool :=
  pre.toList.isPrefixOf s.toList

/-- Python's character slice `s[n:]`: drop the first `n` characters of `s`. -/
def pyslice (s : String) (n : Nat) : String :=
  String.mk (s.toList.drop n)

/-- One observable event of the generator on one line: a yielded chunk
(`yield json.loads(data)`) or a printed diagnostic
(`print(f"Failed to parse: ...")`). -/
inductive StreamEvent where
  | chunk (j : Json)
  | diag (msg : String)

/-- The loop body of `generate_response_stream` for one line of the response
body (tutorial_poc.py lines 186-193):

    if line:
        line_str = line.decode("utf-8")
        if line_str.startswith("data: "):
            data = line_str[6:]  # Remove "data: " prefix
            try:
                yield json.loads(data)
            except json.JSONDecodeError:
                print(f"Failed to parse: \x7bdata\x7d")

Empty lines and lines without the prefix produce no event; a data line yields
its parsed value, or prints one diagnostic when parsing fails. -/
def decodeLine (line : String) : List StreamEvent :=
  if line = "" then []
  else if startswith line "data: " then
    match json_loads (pyslice line 6) with
    | some j => [StreamEvent.chunk j]
    | none => [StreamEvent.diag ("Failed to parse: " ++ pyslice line 6)]
  else []

/-- The event sequence of `generate_response_stream`'s decoding loop
(`for line in response.iter_lines(): ...`) over a finite run delivering the
given body lines, in order. -/
def generate_response_stream (lines : List String) : List StreamEvent :=
  lines.flatMap decodeLine

/-- The chunks yielded to the caller, extracted from the event sequence (the
diagnostics go to stdout, not to the caller). -/
def eventChunks (evs : List StreamEvent) : List Json :=
  evs.filterMap (fun e =>
    match e with
    | StreamEvent.chunk j => some j
    | StreamEvent.diag _ => none)

/-- A request-level error surfaced by the HTTP layer to the caller of
`generate_response_stream`: the `requests.HTTPError` raised by
`response.raise_for_status()` on a non-success status, or a
connection/read failure raised by `requests`. -/
inductive ReqError where
  | httpStatusError (status : Nat)
  | connectionError (msg : String)

/-- Outcome of the `requests.post(..., stream=True)` call: either the request
itself fails (no response), or a response arrives with a status code and a
body that delivers some lines and then either ends cleanly
(`readFail = none`) or fails mid-read with a network error. -/
inductive NetOutcome where
  | connError (msg : String)
  | resp (status : Nat) (lines : List String) (readFail : Option String)

/-- `response.raise_for_status()`: `requests` raises `HTTPError` exactly for
client-error (4xx) and server-error (5xx) status codes. -/
def raise_for_status (status : Nat) : Except ReqError Unit :=
  if 400 ≤ status ∧ status < 600 then Except.error (ReqError.httpStatusError status)
  else Except.ok ()

/-- A whole finite run of `generate_response_stream` (tutorial_poc.py lines
177-193) over a network outcome: the events produced, paired with how the
generator terminates.  The `requests.post` call raising propagates before any
line is read; `raise_for_status` runs before the loop; the `except` clause
inside the loop catches only `json.JSONDecodeError`, so a read failure during
`iter_lines` propagates to the caller after the events of the lines already
delivered. -/
def generate_response_stream_run : NetOutcome → List StreamEvent × Except ReqError Unit
  | NetOutcome.connError msg => ([], Except.error (ReqError.connectionError msg))
  | NetOutcome.resp status lines readFail =>
    match raise_for_status status with
    | Except.error e => ([], Except.error e)
    | Except.ok _ =>
      (generate_response_stream lines,
        match readFail with
        | some e => Except.error (ReqError.connectionError e)
        | none => Except.ok ())

/-- Python's `dict(pairs).get(key, dflt)` as the consumer in `main` applies it
to a parsed payload (`chunk.get('stored', False)`): building the `dict`
resolves duplicate keys last-wins, and `get` falls back to the default when
the key is absent. -/
def dict_get : List (String × Json) → String → Json → Json
  | [], _, dflt => dflt
  | kv :: rest, key, dflt =>
    if kv.1 == key then dict_get rest key kv.2 else dict_get rest key dflt

/-- The `stored` value observed by the stream's consumer (tutorial_poc.py line
287: `stored = chunk.get('stored', False)`): for an object chunk, the
payload's `stored` value with default `False`; on a non-object chunk `.get`
raises `AttributeError` (`none`). -/
def consumer_observed_stored : Json → Option Json
  | Json.obj fields => some (dict_get fields "stored" (Json.bool false))
  | _ => none

/-! ### Helper lemmas -/

theorem generate_response_stream_cons (l : String) (rest : List String) :
    generate_response_stream (l :: rest) =
      decodeLine l ++ generate_response_stream rest :=
  List.flatMap_cons ..

theorem generate_response_stream_append (xs ys : List String) :
    generate_response_stream (xs ++ ys) =
      generate_response_stream xs ++ generate_response_stream ys :=
  List.flatMap_append ..

theorem eventChunks_append (a b : List StreamEvent) :
    eventChunks (a ++ b) = eventChunks a ++ eventChunks b :=
  List.filterMap_append ..

/-- The chunks a single line contributes: the parsed value of a data line,
nothing otherwise. -/
theorem eventChunks_decodeLine (l : String) :
    eventChunks (decodeLine l) =
      (if startswith l "data: " = true then json_loads (pyslice l 6) else none).toList := by
  by_cases h0 : l = ""
  · subst h0
    have hsw : startswith "" "data: " = false := by decide
    simp [decodeLine, eventChunks, hsw]
  · by_cases h1 : startswith l "data: " = true
    · rw [if_pos h1]
      cases hj : json_loads (pyslice l 6) <;>
        simp [decodeLine, eventChunks, h0, h1, hj]
    · have h1f : startswith l "data: " = false := by
        cases hb : startswith l "data: "
        · rfl
        · exact absurd hb h1
      simp [decodeLine, eventChunks, h0, h1f]

theorem startswith_ne_empty (l : String) (h : startswith l "data: " = true) : l ≠ "" := by
  intro he
  rw [he] at h
  exact absurd h (by decide)

theorem dict_get_of_key_absent (fields : List (String × Json)) (key : String) (dflt : Json)
    (h : ∀ kv ∈ fields, kv.1 ≠ key) : dict_get fields key dflt = dflt := by
  induction fields generalizing dflt with
  | nil => rfl
  | cons kv rest ih =>
    have hk : (kv.1 == key) = false := by
      have := h kv (List.mem_cons_self ..)
      simp [this]
    simp only [dict_get, hk, Bool.false_eq_true, if_false]
    exact ih dflt (fun kv2 hm => h kv2 (List.mem_cons_of_mem _ hm))

theorem dict_get_isBool (fields : List (String × Json)) (key : String) (dflt : Json)
    (hd : dflt.isBool = true)
    (h : ∀ kv ∈ fields, kv.1 = key → kv.2.isBool = true) :
    (dict_get fields key dflt).isBool = true := by
  induction fields generalizing dflt with
  | nil => exact hd
  | cons kv rest ih =>
    by_cases hk : kv.1 = key
    · have hkb : (kv.1 == key) = true := by simp [hk]
      simp only [dict_get, hkb, if_true]
      exact ih kv.2 (h kv (List.mem_cons_self ..) hk)
        (fun kv2 hm => h kv2 (List.mem_cons_of_mem _ hm))
    · have hkb : (kv.1 == key) = false := by simp [hk]
      simp only [dict_get, hkb, Bool.false_eq_true, if_false]
      exact ih dflt hd (fun kv2 hm => h kv2 (List.mem_cons_of_mem _ hm))

theorem isBool_exists_bool (j : Json) (h : j.isBool = true) : ∃ b : Bool, j = Json.bool b := by
  cases j <;> simp [Json.isBool] at h ⊢

/-! ### Claims -/

/-- C1: every line of the form `data: <json>` whose remainder after the
6-character prefix parses successfully contributes exactly one event, the
chunk holding the parsed value; and over a whole run the yielded chunk
sequence is exactly the input line sequence, in order, filtered through
per-line decoding (no reordering). -/
theorem C1_data_line_yields_parsed_chunk_in_order :
    (∀ (line : String) (j : Json),
      startswith line "data: " = true →
      json_loads (pyslice line 6) = some j →
      decodeLine line = [StreamEvent.chunk j]) ∧
    (∀ lines : List String,
      eventChunks (generate_response_stream lines) =
        lines.filterMap (fun l =>
          if startswith l "data: " = true then json_loads (pyslice l 6) else none)) := by
  constructor
  · intro line j hpre hj
    simp [decodeLine, startswith_ne_empty line hpre, hpre, hj]
  · intro lines
    induction lines with
    | nil => rfl
    | cons l rest ih =>
      rw [generate_response_stream_cons, eventChunks_append, ih, List.filterMap_cons,
        eventChunks_decodeLine]
      cases hif : (if startswith l "data: " = true then json_loads (pyslice l 6) else none) <;>
        simp

/-- Witness for C1 at the concrete line `data: true`. -/
theorem C1_witness :
    decodeLine "data: true" = [StreamEvent.chunk (Json.bool true)] :=
  C1_data_line_yields_parsed_chunk_in_order.1 "data: true" (Json.bool true) (by decide) rfl

/-- C2: a line carrying the `data: ` prefix whose remainder fails JSON parsing
contributes no chunk and exactly one diagnostic, and the rest of the stream is
decoded unchanged: a single malformed chunk never terminates the output
sequence (the parse error is caught inside the loop, not raised).  -/
theorem C2_malformed_data_line_reports_and_continues :
    ∀ (line : String) (rest : List String),
      startswith line "data: " = true →
      json_loads (pyslice line 6) = none →
      decodeLine line = [StreamEvent.diag ("Failed to parse: " ++ pyslice line 6)] ∧
      generate_response_stream (line :: rest) =
        StreamEvent.diag ("Failed to parse: " ++ pyslice line 6) ::
          generate_response_stream rest := by
  intro line rest hpre hj
  have hd : decodeLine line = [StreamEvent.diag ("Failed to parse: " ++ pyslice line 6)] := by
    simp [decodeLine, startswith_ne_empty line hpre, hpre, hj]
  exact ⟨hd, by rw [generate_response_stream_cons, hd]; rfl⟩

/-- Witness for C2 at the concrete malformed line `data: x` followed by a
well-formed line. -/
theorem C2_witness :
    decodeLine "data: x" = [StreamEvent.diag ("Failed to parse: " ++ pyslice "data: x" 6)] ∧
    generate_response_stream ("data: x" :: ["data: true"]) =
      StreamEvent.diag ("Failed to parse: " ++ pyslice "data: x" 6) ::
        generate_response_stream ["data: true"] :=
  C2_malformed_data_line_reports_and_continues "data: x" ["data: true"] (by decide) rfl

/-- C3: a line not beginning with the literal prefix `data: ` — the empty line
and whitespace-only lines included — contributes no event at all (no chunk, no
diagnostic, no error). -/
theorem C3_non_data_line_yields_nothing :
    ∀ line : String, startswith line "data: " = false → decodeLine line = [] := by
  intro line h
  simp [decodeLine, h]

/-- Witness for C3 at an empty line, a whitespace-only line, and a non-data
keep-alive line. -/
theorem C3_witness :
    decodeLine "" = [] ∧ decodeLine "   " = [] ∧ decodeLine "event: done" = [] :=
  ⟨C3_non_data_line_yields_nothing "" (by decide),
   C3_non_data_line_yields_nothing "   " (by decide),
   C3_non_data_line_yields_nothing "event: done" (by decide)⟩

/-- C4: on the specific three-line input of the spec, the decoder produces
exactly two chunk events, in order: the `Hi`/`stored: true` object, then the
`\x20there`/`stored: false` object. -/
theorem C4_concrete_three_line_sequence :
    generate_response_stream
      ["data: \x7b\"role\":\"assistant\",\"content\":\"Hi\",\"stored\":true\x7d",
       "",
       "data: \x7b\"role\":\"assistant\",\"content\":\" there\",\"stored\":false\x7d"] =
      [StreamEvent.chunk (Json.obj
          [("role", Json.str "assistant"), ("content", Json.str "Hi"),
           ("stored", Json.bool true)]),
       StreamEvent.chunk (Json.obj
          [("role", Json.str "assistant"), ("content", Json.str " there"),
           ("stored", Json.bool false)])] := rfl

/-- C5: a connection failure of the POST and a non-success (4xx/5xx) status
both surface to the caller as a request-level error with no chunk yielded; a
read failure during streaming also terminates the run with the error
propagated (the decoder's `except` catches only `json.JSONDecodeError`). -/
theorem C5_request_level_errors_propagate :
    (∀ msg : String,
      generate_response_stream_run (NetOutcome.connError msg) =
        ([], Except.error (ReqError.connectionError msg))) ∧
    (∀ (status : Nat) (lines : List String) (readFail : Option String),
      400 ≤ status → status < 600 →
      generate_response_stream_run (NetOutcome.resp status lines readFail) =
        ([], Except.error (ReqError.httpStatusError status))) ∧
    (∀ (status : Nat) (lines : List String) (e : String),
      ¬(400 ≤ status ∧ status < 600) →
      (generate_response_stream_run (NetOutcome.resp status lines (some e))).2 =
        Except.error (ReqError.connectionError e)) := by
  refine ⟨fun msg => rfl, ?_, ?_⟩
  · intro status lines readFail h1 h2
    simp [generate_response_stream_run, raise_for_status, h1, h2]
  · intro status lines e h
    simp [generate_response_stream_run, raise_for_status, h]

/-- Witness for C5 at a 404 response and at a mid-stream read failure on a 200
response. -/
theorem C5_witness :
    generate_response_stream_run (NetOutcome.resp 404 ["data: true"] none) =
      ([], Except.error (ReqError.httpStatusError 404)) ∧
    (generate_response_stream_run
        (NetOutcome.resp 200 ["data: true"] (some "connection reset"))).2 =
      Except.error (ReqError.connectionError "connection reset") :=
  ⟨C5_request_level_errors_propagate.2.1 404 ["data: true"] none (by decide) (by decide),
   C5_request_level_errors_propagate.2.2 200 ["data: true"] "connection reset" (by decide)⟩

/-- C6: the first `n` yielded chunks depend only on an input prefix that
already produces `n` chunks — extending the line sequence arbitrarily beyond
such a prefix never changes them, so a caller that stops after the `n`-th
chunk is unaffected by anything later in the stream. -/
theorem C6_first_chunks_depend_only_on_input_prefix :
    ∀ (xs ys : List String) (n : Nat),
      n ≤ (eventChunks (generate_response_stream xs)).length →
      (eventChunks (generate_response_stream (xs ++ ys))).take n =
        (eventChunks (generate_response_stream xs)).take n := by
  intro xs ys n h
  rw [generate_response_stream_append, eventChunks_append,
    List.take_append_of_le_length h]

/-- Witness for C6: the first chunk is unchanged when more lines follow. -/
theorem C6_witness :
    (eventChunks (generate_response_stream (["data: true"] ++ ["data: false", "x"]))).take 1 =
      (eventChunks (generate_response_stream ["data: true"])).take 1 :=
  C6_first_chunks_depend_only_on_input_prefix ["data: true"] ["data: false", "x"] 1
    (by decide)

/-- C8, as stated, is false: the code validates nothing, so a payload whose
`stored` value is the string `"x"` reaches the consumer, which observes the
non-boolean value `Json.str "x"` for `stored`. -/
theorem C8_counterexample :
    decodeLine "data: \x7b\"stored\":\"x\"\x7d" =
      [StreamEvent.chunk (Json.obj [("stored", Json.str "x")])] ∧
    consumer_observed_stored (Json.obj [("stored", Json.str "x")]) = some (Json.str "x") ∧
    (Json.str "x").isBool = false :=
  ⟨rfl, rfl, rfl⟩

/-- C8 amended: for object payloads the consumer observes `false` for `stored`
when the payload has no `stored` entry, and observes a boolean whenever every
`stored` entry of the payload is boolean; no validation forces the boolean
type when the payload supplies something else. -/
theorem C8_amended_stored_defaults_to_false :
    (∀ fields : List (String × Json),
      (∀ kv ∈ fields, kv.1 ≠ "stored") →
      consumer_observed_stored (Json.obj fields) = some (Json.bool false)) ∧
    (∀ fields : List (String × Json),
      (∀ kv ∈ fields, kv.1 = "stored" → kv.2.isBool = true) →
      ∃ b : Bool, consumer_observed_stored (Json.obj fields) = some (Json.bool b)) := by
  constructor
  · intro fields h
    show some (dict_get fields "stored" (Json.bool false)) = some (Json.bool false)
    rw [dict_get_of_key_absent fields "stored" (Json.bool false) h]
  · intro fields h
    have hb : (dict_get fields "stored" (Json.bool false)).isBool = true :=
      dict_get_isBool fields "stored" (Json.bool false) rfl h
    obtain ⟨b, hbeq⟩ := isBool_exists_bool _ hb
    exact ⟨b, by show some (dict_get fields "stored" (Json.bool false)) = _; rw [hbeq]⟩

/-- Witness for the amended C8 at a payload omitting `stored` and a payload
carrying a boolean `stored`. -/
theorem C8_amended_witness :
    consumer_observed_stored (Json.obj [("role", Json.str "assistant")]) =
      some (Json.bool false) ∧
    ∃ b : Bool, consumer_observed_stored (Json.obj [("stored", Json.bool true)]) =
      some (Json.bool b) :=
  ⟨C8_amended_stored_defaults_to_false.1 [("role", Json.str "assistant")] (by decide),
   C8_amended_stored_defaults_to_false.2 [("stored", Json.bool true)] (by decide)⟩

/-- C9: decoding is local to each line — the decoder is a homomorphism for
concatenation of line sequences, so a malformed, empty, or non-prefixed line
can have no effect on how any other line is decoded. -/
theorem C9_decoding_is_concatenation_homomorphism :
    ∀ xs ys : List String,
      generate_response_stream (xs ++ ys) =
        generate_response_stream xs ++ generate_response_stream ys :=
  fun xs ys => List.flatMap_append ..

/-- C10: the decoder is deterministic — equal input line sequences produce
equal event sequences — and the events contributed by a line (its chunk or its
diagnostic) depend only on that line's content, not on its context in the
stream. -/
theorem C10_decoder_deterministic_and_context_free :
    (∀ xs ys : List String, xs = ys →
      generate_response_stream xs = generate_response_stream ys) ∧
    (∀ (pre post : List String) (line : String),
      generate_response_stream (pre ++ line :: post) =
        generate_response_stream pre ++ decodeLine line ++ generate_response_stream post) := by
  constructor
  · intro xs ys h
    rw [h]
  · intro pre post line
    rw [generate_response_stream_append, generate_response_stream_cons,
      ← List.append_assoc]

/-- Witness for C10 at a concrete repeated run. -/
theorem C10_witness :
    generate_response_stream ["data: true", "data: x"] =
      generate_response_stream ["data: true", "data: x"] :=
  C10_decoder_deterministic_and_context_free.1 ["data: true", "data: x"]
    ["data: true", "data: x"] rfl

end TutorialPoc
